import Mathlib

/-!
Verification of the task-lifecycle syscall relay layer
(src/api/src/imp/task/thread.rs and src/api/src/imp/fs/fd_ops.rs).

The Rust code is a thin relay between the Linux syscall ABI and external
collaborators (the scheduler axtask, the task-extension store, the
posix fd table, starry_core task helpers).  The embedding below models
each relay function directly from its source; collaborator behaviour
that the relay merely forwards is passed in as an explicit argument
(an oracle), so the theorems quantify over every collaborator outcome.
-/

/-- Error kinds of axerrno::LinuxError used by this subsystem. -/
inductive LinuxError where
  | EINVAL
  | ECHILD
  | EMFILE
  | ENOMEM
  | ENODEV
  | ENOSYS
  | EFAULT
  deriving DecidableEq, Repr

/-- LinuxResult of axerrno: Ok payload or a LinuxError. -/
abbrev LinuxResult (α : Type) := Except LinuxError α

theorem except_error_inj {ε α : Type} (a b : ε) :
    (Except.error a : Except ε α) = Except.error b ↔ a = b := by
  constructor <;> (intro h; cases h; rfl)

theorem except_ok_inj {ε α : Type} (a b : α) :
    (Except.ok a : Except ε α) = Except.ok b ↔ a = b := by
  constructor <;> (intro h; cases h; rfl)

instance {ε α : Type} [DecidableEq ε] [DecidableEq α] : DecidableEq (Except ε α) := by
  intro a b
  cases a <;> cases b
  case error.error x y => exact decidable_of_iff (x = y) (except_error_inj x y).symm
  case ok.ok x y => exact decidable_of_iff (x = y) (except_ok_inj x y).symm
  all_goals exact isFalse (by intro h; cases h)

/-- Per-task extension record attached to the scheduler task
(the fields of the Task Extension Store that this subsystem reads or
writes: task id, process id, the clear_child_tid address, the stored
stack-size limit and the fd limit).  A null clear_child_tid is the
value 0, as in the source where it is a raw pointer. -/
structure TaskExt where
  id : Nat
  proc_id : Nat
  clear_child_tid : Nat
  stack_size : Nat
  fd_limit : Nat
  deriving DecidableEq, Repr

/-- User memory, modelled as an association list from 4-byte-word
addresses to word values; an address absent from the list is unmapped. -/
abbrev UserMem := List (Nat × Nat)

/-- A raw, unchecked pointer write as performed by the unsafe blocks in
thread.rs: it succeeds only when the target address is mapped, and on an
unmapped address it is a fault (there is no error return on this path). -/
def rawWrite (mem : UserMem) (addr v : Nat) : Option UserMem :=
  match mem.lookup addr with
  | some _ => some (mem.map fun p => if p.fst = addr then (addr, v) else p)
  | none => none

/-- Outcome of sys_exit for the current task: the task exits (with the
resulting user memory), or the raw store to clear_child_tid hits an
unmapped address and faults in kernel mode. -/
inductive ExitOutcome where
  | exited (mem : UserMem)
  | kernelFault
  deriving DecidableEq, Repr

/-- sys_exit from thread.rs lines 49-61: if clear_child_tid is non-null,
store 0 to it with a raw unchecked write, then ask the scheduler to
terminate the task.  The second component is the trace of user-memory
writes the call performed (address, value).  The exit status is passed
to the scheduler unchanged and does not affect user memory, so it is
not a parameter here. -/
def sys_exit (mem : UserMem) (clear_child_tid : Nat) : ExitOutcome × List (Nat × Nat) :=
  if clear_child_tid ≠ 0 then
    match rawWrite mem clear_child_tid 0 with
    | some m => (ExitOutcome.exited m, [(clear_child_tid, 0)])
    | none => (ExitOutcome.kernelFault, [])
  else
    (ExitOutcome.exited mem, [])

/-- sys_set_tid_address from thread.rs lines 72-77: records the given
address in the clear_child_tid field of the current task and returns the
task id.  It never fails. -/
def sys_set_tid_address (t : TaskExt) (addr : Nat) : TaskExt × LinuxResult Int :=
  ({ t with clear_child_tid := addr }, Except.ok (t.id : Int))

/-- The scheduler primitive axtask::exit terminates exactly the current
task: the live-task set loses the task with the given id and nothing
else. -/
def axtask_exit (tasks : List TaskExt) (cur : Nat) : List TaskExt :=
  tasks.filter fun t => t.id != cur

/-- sys_exit_group from thread.rs lines 63-66: the body is exactly
axtask::exit(status) on the current task (the source logs that it
temporarily replaces sys_exit_group with sys_exit), so only the calling
task is removed from the live-task set. -/
def sys_exit_group (tasks : List TaskExt) (cur : Nat) : List TaskExt :=
  axtask_exit tasks cur

/-- WNOHANG bit of the wait options. -/
def WNOHANG : Nat := 1

/-- Modelled from the spec: the WaitFlags bitmask type lives in
starry_core::ctypes, outside src/.  The spec names WNOHANG as the only
recognized wait option, so the set of defined bits is modelled as
exactly WNOHANG; from_bits of the bitflags crate succeeds exactly when
the argument has no bits outside the defined set. -/
def waitFlagsMask : Nat := WNOHANG

/-- WaitFlags::from_bits: some on a value whose bits are all defined,
none otherwise. -/
def waitFlags_from_bits (option : Nat) : Option Nat :=
  if option &&& waitFlagsMask = option then some option else none

/-- The Err payloads of starry_core wait_pid that sys_wait4 matches on:
NotExist and Running are handled, every other status falls to the
catch-all arm. -/
inductive WaitStatus where
  | NotExist
  | Running
  | unexpected
  deriving DecidableEq, Repr

/-- One answer of the external wait_pid collaborator: Ok(reaped pid) or
Err(status). -/
inductive WaitPidAnswer where
  | ok (pid : Nat)
  | err (s : WaitStatus)
  deriving DecidableEq, Repr

/-- Observable outcome of sys_wait4: a returned LinuxResult together
with the number of yield_now suspensions taken before returning, a
panicked execution, or still waiting after consuming every oracle
answer. -/
inductive WaitOutcome where
  | ret (r : LinuxResult Int) (yields : Nat)
  | panicked (msg : String)
  | pending (yields : Nat)
  deriving DecidableEq, Repr

/-- The retry loop of sys_wait4 (thread.rs lines 153-175), with the
successive results of wait_pid supplied as an oracle list.  Ok returns
the pid; Err(NotExist) returns ECHILD; Err(Running) returns 0 when
WNOHANG is set and otherwise calls yield_now and retries; any other
status hits the catch-all arm, which panics. -/
def wait_loop (wnohang : Bool) (yields : Nat) : List WaitPidAnswer → WaitOutcome
  | [] => WaitOutcome.pending yields
  | WaitPidAnswer.ok pid :: _ => WaitOutcome.ret (Except.ok (pid : Int)) yields
  | WaitPidAnswer.err WaitStatus.NotExist :: _ =>
      WaitOutcome.ret (Except.error LinuxError.ECHILD) yields
  | WaitPidAnswer.err WaitStatus.Running :: rest =>
      if wnohang then WaitOutcome.ret (Except.ok 0) yields
      else wait_loop wnohang (yields + 1) rest
  | WaitPidAnswer.err WaitStatus.unexpected :: _ =>
      WaitOutcome.panicked "Shouldnt reach here"

/-- sys_wait4 from thread.rs lines 146-176.  First the option bits are
parsed with WaitFlags::from_bits(option).unwrap(), which panics when
from_bits yields none; then the optional exit-code out-pointer is
resolved through the user-pointer accessor (exit_code_ptr_ok says
whether that resolution succeeds; it is true for a null pointer); then
the retry loop runs.  The pid argument is forwarded to wait_pid
unchanged, so it is absorbed into the oracle answer list. -/
def sys_wait4 (option : Nat) (exit_code_ptr_ok : Bool)
    (answers : List WaitPidAnswer) : WaitOutcome :=
  match waitFlags_from_bits option with
  | none => WaitOutcome.panicked "called unwrap on None"
  | some flags =>
      if exit_code_ptr_ok then wait_loop ((flags &&& WNOHANG) != 0) 0 answers
      else WaitOutcome.ret (Except.error LinuxError.EFAULT) 0

/-- Modelled from the spec: the failure causes of the external
starry_core clone_task collaborator (outside src/).  The spec names two:
an unsupported flag combination, and exhaustion when the scheduler
cannot allocate a new task identity. -/
inductive CloneErr where
  | badFlags
  | noMem
  deriving DecidableEq, Repr

/-- sys_clone from thread.rs lines 117-143: a zero user_stack becomes
None and any other value Some; the call is forwarded to the clone_task
collaborator (passed here as an argument); an Ok task id is returned as
the result, and every Err, whatever its cause, becomes ENOMEM via the
if-let / else structure of the source. -/
def sys_clone (clone_task : Nat → Option Nat → Nat → Nat → Nat → Except CloneErr Nat)
    (flags user_stack ptid tls ctid : Nat) : LinuxResult Int :=
  let stack : Option Nat := if user_stack = 0 then none else some user_stack
  match clone_task flags stack ptid tls ctid with
  | Except.ok new_task_id => Except.ok (new_task_id : Int)
  | Except.error _ => Except.error LinuxError.ENOMEM

/-- sys_dup from fd_ops.rs lines 7-14: the collaborator result (the
lowest free descriptor on success, a negative error code on failure) is
compared against the fd limit of the caller; a value at or above the
limit fails with EMFILE, anything below it is returned as Ok.  The
numeric cast of the source is modelled as the exact embedding of the
fd limit into Int. -/
def sys_dup (t : TaskExt) (api_new_fd : Int) : LinuxResult Int :=
  if (t.fd_limit : Int) ≤ api_new_fd then Except.error LinuxError.EMFILE
  else Except.ok api_new_fd

/-- sys_dup3 from fd_ops.rs lines 16-18: unconditional pass-through of
the collaborator return value as Ok. -/
def sys_dup3 (api_ret : Int) : LinuxResult Int :=
  Except.ok api_ret

/-- sys_close from fd_ops.rs lines 20-22: unconditional pass-through of
the collaborator return value as Ok. -/
def sys_close (api_ret : Int) : LinuxResult Int :=
  Except.ok api_ret

/-- sys_fcntl from fd_ops.rs lines 24-26: unconditional pass-through of
the collaborator return value as Ok. -/
def sys_fcntl (api_ret : Int) : LinuxResult Int :=
  Except.ok api_ret

/-- RLIMIT_STACK resource number (starry_core::ctypes, the Linux value). -/
def RLIMIT_STACK : Int := 3

/-- The RLimit structure of starry_core::ctypes: soft and hard limit. -/
structure RLimit where
  rlim_cur : Nat
  rlim_max : Nat
  deriving DecidableEq, Repr

/-- Result view of sys_prlimit64: the returned LinuxResult, the stored
stack-size limit after the call, and the RLimit value written through
the old-limit pointer when one was supplied. -/
structure PrlimitOut where
  ret : LinuxResult Int
  stack : Nat
  old_out : Option RLimit
  deriving DecidableEq, Repr

/-- sys_prlimit64 from thread.rs lines 219-281.  A pid other than 0 or
the process id of the caller fails with EINVAL.  For RLIMIT_STACK the
current stored stack size is first written (as both soft and hard
limit) through the old-limit pointer when that pointer is non-null, and
then, when the new-limit pointer is non-null, the rlim_cur it points to
replaces the stored stack size.  Every other resource is a no-op.  All
accepted paths return Ok 0.  The raw pointer reads and writes of the
source are modelled by old_requested (old pointer non-null) and
new_limit (the RLimit read through a non-null new pointer). -/
def sys_prlimit64 (proc_id : Nat) (stack : Nat) (pid : Int) (resource : Int)
    (new_limit : Option RLimit) (old_requested : Bool) : PrlimitOut :=
  if pid = 0 ∨ pid = (proc_id : Int) then
    if resource = RLIMIT_STACK then
      let stack_limit := stack
      let old_out : Option RLimit :=
        if old_requested then some { rlim_cur := stack_limit, rlim_max := stack_limit }
        else none
      match new_limit with
      | some r => { ret := Except.ok 0, stack := r.rlim_cur, old_out := old_out }
      | none => { ret := Except.ok 0, stack := stack_limit, old_out := old_out }
    else
      { ret := Except.ok 0, stack := stack, old_out := none }
  else
    { ret := Except.error LinuxError.EINVAL, stack := stack, old_out := none }

/-- C1, counterexample: after set_tid_address(0) the clear_child_tid
field is null, so a following exit performs no user-memory write at all,
even at an address (0) that is mapped and writable; the claimed single
zero-write [(0, 0)] does not happen.  -/
theorem c1_null_addr_counterexample :
    ¬ ((sys_exit [(0, 37)]
        (sys_set_tid_address ⟨1, 1, 0, 0, 16⟩ 0).fst.clear_child_tid).snd = [(0, 0)]) := by
  decide

/-- C1, amended: for every task, every mapped non-null address addr and
every exit status, set_tid_address(addr) followed by exit writes the
zero word to addr exactly once (the write trace is exactly [(addr, 0)]);
and exit on a task whose clear_child_tid was never set (it is null)
performs no user-memory write at all. -/
theorem c1_set_tid_then_exit_zeroes_once (t t0 : TaskExt) (mem : UserMem) (addr w : Nat)
    (hnz : addr ≠ 0) (hmap : mem.lookup addr = some w) (h0 : t0.clear_child_tid = 0) :
    (sys_exit mem (sys_set_tid_address t addr).fst.clear_child_tid).snd = [(addr, 0)] ∧
    (sys_exit mem t0.clear_child_tid).snd = [] := by
  constructor
  · simp [sys_set_tid_address, sys_exit, rawWrite, hnz, hmap]
  · simp [sys_exit, h0]

theorem c1_set_tid_then_exit_zeroes_once_witness :
    (sys_exit [(100, 5)]
      (sys_set_tid_address ⟨1, 1, 0, 0, 16⟩ 100).fst.clear_child_tid).snd = [(100, 0)] ∧
    (sys_exit [(100, 5)] (⟨2, 1, 0, 0, 16⟩ : TaskExt).clear_child_tid).snd = [] :=
  c1_set_tid_then_exit_zeroes_once ⟨1, 1, 0, 0, 16⟩ ⟨2, 1, 0, 0, 16⟩ [(100, 5)] 100 5
    (by decide) (by decide) (by decide)

/-- C2: exit_group is claimed to terminate every task sharing the
proc_id of the caller; the code merely terminates the calling task.  In
a system of two tasks with the same proc_id 1, task 1 calling
exit_group leaves its sibling task 2 (same proc_id) alive. -/
theorem c2_exit_group_leaves_sibling_alive :
    sys_exit_group [⟨1, 1, 0, 0, 16⟩, ⟨2, 1, 0, 0, 16⟩] 1 = [⟨2, 1, 0, 0, 16⟩] ∧
    (⟨2, 1, 0, 0, 16⟩ : TaskExt).proc_id = (⟨1, 1, 0, 0, 16⟩ : TaskExt).proc_id := by
  decide

/-- C3: wait4 with the WNOHANG option set (and the option word valid
for the flag parser, and a resolvable exit-code pointer) on a child
reported Running returns Ok 0 at once, with zero yield_now suspensions,
for every continuation of the wait_pid oracle. -/
theorem c3_wait4_wnohang_running_returns_zero (option : Nat) (rest : List WaitPidAnswer)
    (hv : waitFlags_from_bits option = some option)
    (hw : option &&& WNOHANG ≠ 0) :
    sys_wait4 option true (WaitPidAnswer.err WaitStatus.Running :: rest) =
      WaitOutcome.ret (Except.ok 0) 0 := by
  have hb : ((option &&& WNOHANG) != 0) = true := by simpa using hw
  simp [sys_wait4, hv, wait_loop, hb]

theorem c3_wait4_wnohang_running_returns_zero_witness :
    sys_wait4 1 true [WaitPidAnswer.err WaitStatus.Running] =
      WaitOutcome.ret (Except.ok 0) 0 :=
  c3_wait4_wnohang_running_returns_zero 1 [] (by decide) (by decide)

/-- C4: when wait_pid reports NotExist (no matching child ever known to
the caller), wait4 returns the ECHILD error, for every option word the
flag parser accepts and every oracle continuation; it returns neither a
pid nor 0. -/
theorem c4_wait4_not_exist_echild (option flags : Nat) (rest : List WaitPidAnswer)
    (hv : waitFlags_from_bits option = some flags) :
    sys_wait4 option true (WaitPidAnswer.err WaitStatus.NotExist :: rest) =
      WaitOutcome.ret (Except.error LinuxError.ECHILD) 0 := by
  simp [sys_wait4, hv, wait_loop]

theorem c4_wait4_not_exist_echild_witness :
    sys_wait4 0 true [WaitPidAnswer.err WaitStatus.NotExist] =
      WaitOutcome.ret (Except.error LinuxError.ECHILD) 0 :=
  c4_wait4_not_exist_echild 0 0 [] (by decide)

/-- C5, counterexample: with a collaborator that rejects the flag word
17 as an unsupported combination, sys_clone reports ENOMEM, not the
claimed invalid-argument error: the two failure causes are not mapped
to distinct error kinds. -/
theorem c5_bad_flags_reported_as_enomem_counterexample :
    sys_clone (fun _ _ _ _ _ => Except.error CloneErr.badFlags) 17 0 0 0 0 =
      Except.error LinuxError.ENOMEM ∧
    LinuxError.ENOMEM ≠ LinuxError.EINVAL :=
  ⟨rfl, by decide⟩

/-- C5, amended: every failure of the clone_task collaborator, whether
an unsupported flag combination or exhaustion of task identities, is
reported by sys_clone as the single error kind ENOMEM, and a successful
allocation returns the new task id; no clone failure is reported as
invalid-argument. -/
theorem c5_clone_failures_collapse_to_enomem (e : CloneErr)
    (new_id flags user_stack ptid tls ctid : Nat) :
    sys_clone (fun _ _ _ _ _ => Except.error e) flags user_stack ptid tls ctid =
      Except.error LinuxError.ENOMEM ∧
    sys_clone (fun _ _ _ _ _ => Except.ok new_id) flags user_stack ptid tls ctid =
      Except.ok (new_id : Int) :=
  ⟨rfl, rfl⟩

/-- C6: for every caller and every result of the descriptor
collaborator, sys_dup either fails with EMFILE or returns the
collaborator value as Ok and that value is strictly below the fd limit
of the caller. -/
theorem c6_dup_below_limit_or_emfile (t : TaskExt) (api_new_fd : Int) :
    sys_dup t api_new_fd = Except.error LinuxError.EMFILE ∨
    (sys_dup t api_new_fd = Except.ok api_new_fd ∧ api_new_fd < (t.fd_limit : Int)) := by
  by_cases h : (t.fd_limit : Int) ≤ api_new_fd
  · left
    simp [sys_dup, h]
  · right
    exact ⟨by simp [sys_dup, h], lt_of_not_le h⟩

/-- C7: sys_wait4 panics on the caller-supplied option word 4, a bit
the WaitFlags bitmask does not define: from_bits yields none and the
unwrap in the source panics instead of returning an error. -/
theorem c7_wait4_panics_on_undefined_option_bit :
    sys_wait4 4 true [] = WaitOutcome.panicked "called unwrap on None" := by
  decide

/-- C8: the clear_child_tid store of sys_exit is a raw unchecked write,
not an accessor-mediated one: exiting with clear_child_tid pointing at
the unmapped address 57005 (memory maps only address 4096) faults in
kernel mode rather than failing the call with an
invalid-user-memory-access error, and no write is recorded. -/
theorem c8_exit_raw_write_faults_on_unmapped :
    sys_exit [(4096, 1)] 57005 = (ExitOutcome.kernelFault, []) := by
  decide

/-- C9: for a caller whose pid argument is 0 or its own process id,
prlimit64 on RLIMIT_STACK with a new limit N and an old-limit output
returns Ok 0, stores N as the stack limit and writes the previous
stored value as both soft and hard field of the old-limit output; a
subsequent prlimit64 for RLIMIT_STACK with no new limit returns Ok 0,
reports N (soft = hard) in its old-limit output and leaves the stored
limit at N. -/
theorem c9_prlimit_stack_roundtrip (proc stack n m : Nat) (pid : Int)
    (hpid : pid = 0 ∨ pid = (proc : Int)) :
    (sys_prlimit64 proc stack pid RLIMIT_STACK (some ⟨n, m⟩) true).ret = Except.ok 0 ∧
    (sys_prlimit64 proc stack pid RLIMIT_STACK (some ⟨n, m⟩) true).stack = n ∧
    (sys_prlimit64 proc stack pid RLIMIT_STACK (some ⟨n, m⟩) true).old_out =
      some ⟨stack, stack⟩ ∧
    (sys_prlimit64 proc n pid RLIMIT_STACK none true).ret = Except.ok 0 ∧
    (sys_prlimit64 proc n pid RLIMIT_STACK none true).stack = n ∧
    (sys_prlimit64 proc n pid RLIMIT_STACK none true).old_out = some ⟨n, n⟩ := by
  have hc : (pid = 0 ∨ pid = (proc : Int)) = True := eq_true hpid
  simp [sys_prlimit64, hc]

theorem c9_prlimit_stack_roundtrip_witness :
    (sys_prlimit64 7 8192 0 RLIMIT_STACK (some ⟨4096, 4096⟩) true).ret = Except.ok 0 ∧
    (sys_prlimit64 7 8192 0 RLIMIT_STACK (some ⟨4096, 4096⟩) true).stack = 4096 ∧
    (sys_prlimit64 7 8192 0 RLIMIT_STACK (some ⟨4096, 4096⟩) true).old_out =
      some ⟨8192, 8192⟩ ∧
    (sys_prlimit64 7 4096 0 RLIMIT_STACK none true).ret = Except.ok 0 ∧
    (sys_prlimit64 7 4096 0 RLIMIT_STACK none true).stack = 4096 ∧
    (sys_prlimit64 7 4096 0 RLIMIT_STACK none true).old_out = some ⟨4096, 4096⟩ :=
  c9_prlimit_stack_roundtrip 7 8192 4096 4096 0 (Or.inl rfl)

/-- C10: whenever the descriptor collaborator reports failure with a
negative error code e, all four relays return Ok e rather than an
error; in particular sys_dup returns Ok because a negative value is
always strictly below the (nonnegative) fd limit. -/
theorem c10_negative_collaborator_codes_wrapped_as_ok (t : TaskExt) (e : Int)
    (he : e < 0) :
    sys_dup t e = Except.ok e ∧ sys_dup3 e = Except.ok e ∧
    sys_close e = Except.ok e ∧ sys_fcntl e = Except.ok e := by
  refine ⟨?_, rfl, rfl, rfl⟩
  have hlim : ¬ ((t.fd_limit : Int) ≤ e) := by
    have h0 : (0 : Int) ≤ (t.fd_limit : Int) := Int.ofNat_nonneg _
    omega
  simp [sys_dup, hlim]

theorem c10_negative_collaborator_codes_wrapped_as_ok_witness :
    sys_dup ⟨1, 1, 0, 0, 16⟩ (-9) = Except.ok (-9) ∧ sys_dup3 (-9) = Except.ok (-9) ∧
    sys_close (-9) = Except.ok (-9) ∧ sys_fcntl (-9) = Except.ok (-9) :=
  c10_negative_collaborator_codes_wrapped_as_ok ⟨1, 1, 0, 0, 16⟩ (-9) (by decide)
